import Mathlib

/-!
Verification of the Stripe reconciliation core in `crates/collab/src/api/billing.rs`:
the event poller (`poll_stripe_events`), the event dispatcher loop, the
subscription synchronizer (`sync_subscription`), the customer handler
(`handle_customer_event` / `find_or_create_billing_customer`) and the usage
sync job (`sync_model_request_usage_with_stripe`).

Modelling conventions:
- machine timestamps (`i64`) are `Int`; counters are `Nat`/`Int` as in the source;
- the durable store is an explicit `Db` value threaded through the functions;
- external Stripe calls that only produce side effects (`cancel_subscription`,
  `subscribe_to_zed_free`, `subscribe_to_price`, `bill_model_request_usage`)
  are recorded in explicit provider-state / trace structures;
- external calls and store writes are modelled as succeeding; the only failure
  modelled inside `sync_subscription` is the "billing customer not found" path,
  which is the one the source produces from its own logic (timestamp
  conversions are total for in-range data, and transport failures are outside
  the algorithm).
-/

namespace Billing

/-- `CompletionMode` from `subscription_usage_meter` (normal vs max/burn mode). -/
inductive CompletionMode
  | normal
  | max
deriving DecidableEq, Repr

/-- `SubscriptionKind` from `db::billing_subscription`. -/
inductive SubscriptionKind
  | ZedPro
  | ZedProTrial
  | ZedFree
deriving DecidableEq, Repr

/-- Stripe subscription lifecycle status (`stripe::SubscriptionStatus`, mapped 1:1
onto `StripeSubscriptionStatus` by the `From` impl in the source). -/
inductive SubscriptionStatus
  | Incomplete
  | IncompleteExpired
  | Trialing
  | Active
  | PastDue
  | Canceled
  | Unpaid
  | Paused
deriving DecidableEq, Repr

/-- `stripe::CancellationDetailsReason` (mapped 1:1 onto `StripeCancellationReason`). -/
inductive CancellationReason
  | CancellationRequested
  | PaymentDisputed
  | PaymentFailed
deriving DecidableEq, Repr

/-- A Stripe subscription snapshot as consumed by `sync_subscription`.
`cancellationReason` is `subscription.cancellation_details.and_then(|d| d.reason)`
flattened into one option. -/
structure StripeSubscription where
  id : String
  customer : String
  status : SubscriptionStatus
  currentPeriodStart : Int
  currentPeriodEnd : Int
  cancelAt : Option Int
  cancellationReason : Option CancellationReason
deriving DecidableEq, Repr

/-- A Stripe customer payload as consumed by `handle_customer_event` and
`find_or_create_billing_customer` (id plus optional email). -/
structure StripeCustomer where
  id : String
  email : Option String
deriving DecidableEq, Repr

/-- The event types the poller subscribes to, plus a catch-all for
allow-listed-but-unhandled types (`_ => Ok(())` in the dispatcher). -/
inductive EventType
  | CustomerCreated
  | CustomerUpdated
  | CustomerSubscriptionCreated
  | CustomerSubscriptionUpdated
  | CustomerSubscriptionPaused
  | CustomerSubscriptionResumed
  | CustomerSubscriptionDeleted
  | Other
deriving DecidableEq, Repr

/-- `stripe::EventObject`, restricted to the payloads the handlers match on. -/
inductive EventObject
  | customer (c : StripeCustomer)
  | subscription (s : StripeSubscription)
  | other
deriving DecidableEq, Repr

/-- A Stripe event: id, type, creation timestamp (epoch seconds), payload. -/
structure Event where
  id : String
  type_ : EventType
  created : Int
  object : EventObject
deriving DecidableEq, Repr

/-! Section: Event poller (`poll_stripe_events`, pagination part) -/

/-- One page of the Stripe events list (`event_pages.page.data` plus `has_more`). -/
structure EventsPage where
  data : List Event
  hasMore : Bool
deriving DecidableEq, Repr

/-- `NUMBER_OF_ALREADY_PROCESSED_PAGES_BEFORE_WE_STOP` from the source. -/
def NUMBER_OF_ALREADY_PROCESSED_PAGES_BEFORE_WE_STOP : Nat := 4

/-- The pagination loop of `poll_stripe_events`.  `pages` is the sequence of
pages the provider would serve in order; `isProcessed` is ledger membership
(`get_processed_stripe_events_by_event_ids`).  Mirrors the source loop:
collect the unprocessed events of the current page, bump
`pages_of_already_processed_events` when the page was entirely processed,
then — only if the page reports `has_more` — stop if the counter has reached
the threshold, else fetch the next page. -/
def pollPages (isProcessed : String → Bool) : List EventsPage → Nat → List Event
  | [], _ => []
  | page :: rest, staleCount =>
    let newEvents := page.data.filter (fun e => !isProcessed e.id)
    let processedInPage := page.data.countP (fun e => isProcessed e.id)
    let staleCount' :=
      if processedInPage = page.data.length then staleCount + 1 else staleCount
    if page.hasMore then
      if NUMBER_OF_ALREADY_PROCESSED_PAGES_BEFORE_WE_STOP ≤ staleCount' then
        newEvents
      else
        newEvents ++ pollPages isProcessed rest staleCount'
    else
      newEvents

/-! Section: Batch ordering (`unprocessed_events.sort_by(...)`) -/

/-- The batch sort order: ascending by `created`, tie-broken by event id
(`a.created.cmp(&b.created).then_with(|| a.id.cmp(&b.id))`); the id
comparison is the character-wise lexicographic order (Rust compares the id
strings byte-wise). -/
def eventLe (a b : Event) : Prop :=
  a.created < b.created ∨ (a.created = b.created ∧ a.id.data ≤ b.id.data)

/-- Boolean form of the comparator. -/
def eventLeB (a b : Event) : Bool :=
  decide (a.created < b.created) ||
    (decide (a.created = b.created) && decide (a.id.data ≤ b.id.data))

/-- Insert an event into an already-sorted list (the batch sort, modelled as a
stable insertion sort; the source uses the standard library's stable
`sort_by` with the comparator `eventLeB`). -/
def insertEvent (e : Event) : List Event → List Event
  | [] => [e]
  | x :: xs => if eventLeB e x then e :: x :: xs else x :: insertEvent e xs

/-- Sort the unprocessed batch ascending by `(created, id)`. -/
def sortEvents : List Event → List Event
  | [] => []
  | e :: es => insertEvent e (sortEvents es)

/-- The full polling phase: paginate, then sort the unprocessed batch; this is
the batch handed to the per-event dispatch loop. -/
def pollUnprocessedBatch (isProcessed : String → Bool) (pages : List EventsPage) :
    List Event :=
  sortEvents (pollPages isProcessed pages 0)

/-! Section: Event dispatcher (the per-event loop of `poll_stripe_events`) -/

/-- What happened to one event in the dispatch loop. -/
inductive Outcome
  | markedStale
  | handledOk
  | handledErr
deriving DecidableEq, Repr

/-- Result of dispatching a batch of events over some state `σ`:
the final state, the processed-event ledger records written (in order), a log
of one outcome per event (in order), and the ids of the events for which the
type-dispatch block (the handler `match`) was actually run. -/
structure DispatchResult (σ : Type) where
  state : σ
  writes : List String
  log : List (String × Outcome)
  invoked : List String
deriving Repr

/-- The staleness horizon: `Utc::now() - Duration::from_secs(24 * 60 * 60)`,
as an epoch-seconds timestamp. -/
def staleCutoff (now : Int) : Int := now - 86400

/-- The per-event dispatch loop of `poll_stripe_events` over the sorted batch:
if the event is older than the 24h horizon, write its ledger record
immediately and skip handling; otherwise run the handler `match`
(`process`), writing the ledger record exactly when it returns `Ok` and
continuing with the rest of the batch either way. -/
def dispatchEvents {σ : Type} (now : Int) (process : σ → Event → Except String σ) :
    σ → List Event → DispatchResult σ
  | st, [] => ⟨st, [], [], []⟩
  | st, e :: rest =>
    if staleCutoff now > e.created then
      let r := dispatchEvents now process st rest
      ⟨r.state, e.id :: r.writes, (e.id, Outcome.markedStale) :: r.log, r.invoked⟩
    else
      match process st e with
      | Except.ok st' =>
        let r := dispatchEvents now process st' rest
        ⟨r.state, e.id :: r.writes, (e.id, Outcome.handledOk) :: r.log, e.id :: r.invoked⟩
      | Except.error _ =>
        let r := dispatchEvents now process st rest
        ⟨r.state, r.writes, (e.id, Outcome.handledErr) :: r.log, e.id :: r.invoked⟩

/-! Section: Data model (`billing_customer`, `billing_subscription` rows) -/

/-- A `billing_customer` row. -/
structure BillingCustomer where
  id : Nat
  userId : Nat
  stripeCustomerId : String
  trialStartedAt : Option Int
  hasOverdueInvoices : Bool
deriving DecidableEq, Repr

/-- A `billing_subscription` row. -/
structure BillingSubscription where
  id : Nat
  billingCustomerId : Nat
  kind : Option SubscriptionKind
  stripeSubscriptionId : String
  status : SubscriptionStatus
  cancelAt : Option Int
  cancellationReason : Option CancellationReason
  currentPeriodStart : Option Int
  currentPeriodEnd : Option Int
deriving DecidableEq, Repr

/-- The durable store as the reconciliation code sees it: customer rows,
subscription rows, the user directory keyed by email, and fresh-id counters. -/
structure Db where
  customers : List BillingCustomer
  subscriptions : List BillingSubscription
  usersByEmail : List (String × Nat)
  nextCustomerId : Nat
  nextSubscriptionId : Nat
deriving DecidableEq, Repr

/-- `get_billing_customer_by_stripe_customer_id`. -/
def getBillingCustomerByStripeCustomerId (db : Db) (cid : String) :
    Option BillingCustomer :=
  db.customers.find? (fun c => c.stripeCustomerId = cid)

/-- `get_user_by_email`, returning the user id. -/
def getUserByEmail (db : Db) (email : String) : Option Nat :=
  (db.usersByEmail.find? (fun p => p.1 = email)).map (fun p => p.2)

/-- Modelled from the spec: `get_active_billing_subscription` /
`has_active_billing_subscription` are store queries that live outside this
file; per the data-model section a Subscription is active when its provider
status is `active` or `trialing` (a trialing subscription is called an
"active (trial) Subscription"). -/
def isActiveStatus : SubscriptionStatus → Bool
  | SubscriptionStatus.Active => true
  | SubscriptionStatus.Trialing => true
  | _ => false

/-- Whether a subscription row belongs to the given user (join through its
`billing_customer_id`). -/
def subscriptionBelongsTo (db : Db) (row : BillingSubscription) (userId : Nat) :
    Bool :=
  match db.customers.find? (fun c => c.id = row.billingCustomerId) with
  | some c => c.userId = userId
  | none => false

/-- Modelled from the spec: `get_active_billing_subscription(user_id)` — the
user's active subscription row, if any (store query outside this file). -/
def getActiveBillingSubscription (db : Db) (userId : Nat) :
    Option BillingSubscription :=
  db.subscriptions.find?
    (fun row => subscriptionBelongsTo db row userId && isActiveStatus row.status)

/-- Modelled from the spec: `has_active_billing_subscription(user_id)`. -/
def hasActiveBillingSubscription (db : Db) (userId : Nat) : Bool :=
  (getActiveBillingSubscription db userId).isSome

/-- `UpdateBillingCustomerParams`: each field is `ActiveValue::set(v)`
(`some v`) or left `NotSet` (`none`). -/
structure UpdateBillingCustomerParams where
  trialStartedAt : Option (Option Int) := none
  hasOverdueInvoices : Option Bool := none
deriving DecidableEq, Repr

/-- Apply `UpdateBillingCustomerParams` to one customer row. -/
def applyCustomerUpdate (p : UpdateBillingCustomerParams) (c : BillingCustomer) :
    BillingCustomer :=
  { c with
    trialStartedAt := p.trialStartedAt.getD c.trialStartedAt
    hasOverdueInvoices := p.hasOverdueInvoices.getD c.hasOverdueInvoices }

/-- `update_billing_customer(id, params)`. -/
def updateBillingCustomer (db : Db) (cid : Nat) (p : UpdateBillingCustomerParams) :
    Db :=
  { db with
    customers :=
      db.customers.map (fun c => if c.id = cid then applyCustomerUpdate p c else c) }

/-- `create_billing_customer(user_id, stripe_customer_id)`: a fresh row with
`trial_started_at` unset and no overdue invoices. -/
def createBillingCustomer (db : Db) (userId : Nat) (stripeCustomerId : String) :
    BillingCustomer × Db :=
  let c : BillingCustomer := ⟨db.nextCustomerId, userId, stripeCustomerId, none, false⟩
  (c, { db with
          customers := db.customers ++ [c]
          nextCustomerId := db.nextCustomerId + 1 })

/-- The `update_billing_subscription` call made by `sync_subscription` for an
existing row: re-points the customer and overwrites kind, status, cancel-at,
cancellation reason and both period bounds from the snapshot. -/
def updateSubscriptionRow (db : Db) (rowId : Nat) (customerId : Nat)
    (kind : Option SubscriptionKind) (s : StripeSubscription) : Db :=
  { db with
    subscriptions :=
      db.subscriptions.map (fun row =>
        if row.id = rowId then
          { row with
            billingCustomerId := customerId
            kind := kind
            stripeSubscriptionId := s.id
            status := s.status
            cancelAt := s.cancelAt
            cancellationReason := s.cancellationReason
            currentPeriodStart := some s.currentPeriodStart
            currentPeriodEnd := some s.currentPeriodEnd }
        else row) }

/-- The `create_billing_subscription` call made by `sync_subscription`
(`CreateBillingSubscriptionParams` carries no cancel-at field, so the new row
has `cancelAt = none`). -/
def createBillingSubscriptionRow (db : Db) (customerId : Nat)
    (kind : Option SubscriptionKind) (s : StripeSubscription) : Db :=
  { db with
    subscriptions :=
      db.subscriptions ++
        [⟨db.nextSubscriptionId, customerId, kind, s.id, s.status, none,
          s.cancellationReason, some s.currentPeriodStart, some s.currentPeriodEnd⟩]
    nextSubscriptionId := db.nextSubscriptionId + 1 }

/-! Section: Provider-side state and effect trace -/

/-- Provider-side state touched by the synchronizer: the provider's view of
each subscription's status, the cancel calls issued, and the customers
enrolled into the free plan. -/
structure ProviderState where
  subStatuses : List (String × SubscriptionStatus)
  canceledSubs : List String
  freeSubscribedCustomers : List String
deriving DecidableEq, Repr

/-- Modelled from the spec: `cancel_subscription(id)` (the `StripeClient`
implementation lives outside this file) — the provider marks that
subscription canceled; we also record the call. -/
def cancelSubscription (p : ProviderState) (subId : String) : ProviderState :=
  { p with
    subStatuses :=
      p.subStatuses.map (fun q =>
        if q.1 = subId then (q.1, SubscriptionStatus.Canceled) else q)
    canceledSubs := subId :: p.canceledSubs }

/-- Modelled from the spec: `subscribe_to_zed_free(customer_id)`
(`StripeBilling` lives outside this file) — enroll the customer in the base
free plan; we record the call. -/
def subscribeToZedFree (p : ProviderState) (custId : String) : ProviderState :=
  { p with freeSubscribedCustomers := custId :: p.freeSubscribedCustomers }

/-- The provider subscriptions currently in an active status. -/
def activeProviderSubIds (p : ProviderState) : List String :=
  (p.subStatuses.filter (fun q => isActiveStatus q.2)).map (fun q => q.1)

/-! Section: Customer resolution and the customer-event handler -/

/-- `find_or_create_billing_customer`: reuse the local row for the Stripe
customer id if present; otherwise live-fetch the provider customer
(`getCustomerEmail` models `get_customer(id).email`), and return `none` when
the fetched customer has no email or the email matches no local user;
otherwise create the row. -/
def findOrCreateBillingCustomer (db : Db) (getCustomerEmail : String → Option String)
    (customerId : String) : Option BillingCustomer × Db :=
  match getBillingCustomerByStripeCustomerId db customerId with
  | some c => (some c, db)
  | none =>
    match getCustomerEmail customerId with
    | none => (none, db)
    | some email =>
      match getUserByEmail db email with
      | none => (none, db)
      | some userId =>
        let r := createBillingCustomer db userId customerId
        (some r.1, r.2)

/-- `handle_customer_event` (payload part): missing email or unknown email is
a successful no-op; an existing row for the Stripe customer id is refreshed
with an empty update (deliberately no field changes); otherwise a new row is
created for the matched user. -/
def handle_customer_event (db : Db) (c : StripeCustomer) : Except String Db :=
  match c.email with
  | none => Except.ok db
  | some email =>
    match getUserByEmail db email with
    | none => Except.ok db
    | some userId =>
      match getBillingCustomerByStripeCustomerId db c.id with
      | some existing => Except.ok (updateBillingCustomer db existing.id {})
      | none => Except.ok (createBillingCustomer db userId c.id).2

/-! Section: Subscription synchronizer (`sync_subscription`) -/

/-- Result of a successful `sync_subscription`: the store, the provider state,
and the resolved billing customer (as fetched, before field updates — the
source returns the model it loaded). -/
structure SyncResult where
  db : Db
  provider : ProviderState
  customer : BillingCustomer
deriving DecidableEq, Repr

/-- Step 6 of `sync_subscription`: if the snapshot's status is `canceled` or
`paused` and the customer has no active subscription left in the store,
enroll them in Zed Free at the provider. -/
def freePlanFallback (db : Db) (provider : ProviderState) (bc : BillingCustomer)
    (s : StripeSubscription) : SyncResult :=
  if (s.status = SubscriptionStatus.Canceled ∨ s.status = SubscriptionStatus.Paused)
      ∧ hasActiveBillingSubscription db bc.userId = false then
    ⟨db, subscribeToZedFree provider bc.stripeCustomerId, bc⟩
  else
    ⟨db, provider, bc⟩

/-- Steps 3 and 4 of `sync_subscription`: trial bookkeeping and the
payment-failure flag, as the two sequential `update_billing_customer`
calls of the source. -/
def applyTrialAndOverdueFlags (kind : Option SubscriptionKind) (db : Db)
    (bc : BillingCustomer) (s : StripeSubscription) : Db :=
  -- Trial bookkeeping: a trialing trial snapshot stamps the customer's
  -- trial-start timestamp with the snapshot's period start.
  let db1 :=
    if kind = some SubscriptionKind.ZedProTrial
        ∧ s.status = SubscriptionStatus.Trialing then
      updateBillingCustomer db bc.id { trialStartedAt := some (some s.currentPeriodStart) }
    else db
  -- Payment-failure flag.
  if s.status = SubscriptionStatus.Canceled
      ∧ s.cancellationReason = some CancellationReason.PaymentFailed then
    updateBillingCustomer db1 bc.id { hasOverdueInvoices := some true }
  else db1

/-- The body of `sync_subscription` after the billing customer has been
resolved: trial bookkeeping, the payment-failure flag, the subscription-row
upsert with its conflict policy, then the free-plan fallback.  No failure
can arise here in the model (all remaining failures in the source are
external-call failures or out-of-range timestamps). -/
def syncAfterCustomer (kind : Option SubscriptionKind) (db : Db)
    (provider : ProviderState) (bc : BillingCustomer) (s : StripeSubscription) :
    SyncResult :=
  let db2 := applyTrialAndOverdueFlags kind db bc s
  -- Upsert keyed by the Stripe subscription id.
  match db2.subscriptions.find? (fun row => row.stripeSubscriptionId = s.id) with
  | some existing =>
    freePlanFallback (updateSubscriptionRow db2 existing.id bc.id kind s) provider bc s
  | none =>
    match getActiveBillingSubscription db2 bc.userId with
    | some act =>
      if act.kind = some SubscriptionKind.ZedFree
          ∧ kind = some SubscriptionKind.ZedProTrial then
        freePlanFallback (createBillingSubscriptionRow db2 bc.id kind s)
          (cancelSubscription provider act.stripeSubscriptionId) bc s
      else
        -- Conflict policy: the user already has an active subscription of
        -- another shape; skip creation and report success (early return, so
        -- the free-plan fallback is not reached on this path).
        ⟨db2, provider, bc⟩
    | none =>
      freePlanFallback (createBillingSubscriptionRow db2 bc.id kind s) provider bc s

/-- `sync_subscription`: classify the snapshot (`classify` models
`determine_subscription_kind`, the external price-catalog lookup), resolve
the billing customer (an unresolvable customer is the error path — the
ledger entry is withheld), then reconcile. -/
def sync_subscription (classify : StripeSubscription → Option SubscriptionKind)
    (getCustomerEmail : String → Option String) (db : Db)
    (provider : ProviderState) (s : StripeSubscription) : Except String SyncResult :=
  let kind := classify s
  match findOrCreateBillingCustomer db getCustomerEmail s.customer with
  | (none, _) => Except.error "billing customer not found"
  | (some bc, db1) => Except.ok (syncAfterCustomer kind db1 provider bc s)

/-! Section: The dispatcher's handler `match`, routed over the full state -/

/-- The combined mutable state the dispatcher threads through the handlers. -/
structure FullState where
  db : Db
  provider : ProviderState
deriving DecidableEq, Repr

/-- The `match event.type_` block of the dispatch loop: customer events go to
`handle_customer_event`, subscription events to `sync_subscription` (via
`handle_customer_subscription_event`, whose notification side effects are
best-effort and not modelled), a mismatched payload is the `bail!` path,
and any other type is a successful no-op. -/
def routeEvent (classify : StripeSubscription → Option SubscriptionKind)
    (getCustomerEmail : String → Option String) (st : FullState) (e : Event) :
    Except String FullState :=
  match e.type_ with
  | EventType.CustomerCreated | EventType.CustomerUpdated =>
    match e.object with
    | EventObject.customer c =>
      (handle_customer_event st.db c).map (fun db => { st with db := db })
    | _ => Except.error "unexpected event payload"
  | EventType.CustomerSubscriptionCreated
  | EventType.CustomerSubscriptionUpdated
  | EventType.CustomerSubscriptionPaused
  | EventType.CustomerSubscriptionResumed
  | EventType.CustomerSubscriptionDeleted =>
    match e.object with
    | EventObject.subscription s =>
      (sync_subscription classify getCustomerEmail st.db st.provider s).map
        (fun r => ⟨r.db, r.provider⟩)
    | _ => Except.error "unexpected event payload"
  | EventType.Other => Except.ok st

/-! Section: Usage-to-billing sync (`sync_model_request_usage_with_stripe`) -/

/-- A language model as loaded from the LLM database (`llm_db.model`). -/
structure LlmModel where
  id : Nat
  name : String
deriving DecidableEq, Repr

/-- A per-user usage meter row (`subscription_usage_meter::Model`). -/
structure UsageMeter where
  modelId : Nat
  mode : CompletionMode
  requests : Int
deriving DecidableEq, Repr

/-- The fixed `(model, mode)` matrix iterated per account
(`model_mode_combinations` in the source). -/
def model_mode_combinations : List (String × CompletionMode) :=
  [("claude-opus-4", CompletionMode.max),
   ("claude-opus-4", CompletionMode.normal),
   ("claude-sonnet-4", CompletionMode.max),
   ("claude-sonnet-4", CompletionMode.normal),
   ("claude-3-7-sonnet", CompletionMode.max),
   ("claude-3-7-sonnet", CompletionMode.normal),
   ("claude-3-5-sonnet", CompletionMode.normal)]

/-- The `match model.name.as_str()` block resolving each model/mode to its
metered price (identified here by its lookup key) and meter-event name;
`none` is the `bail!` arm for an unsupported model name. -/
def priceAndMeterEventName (modelName : String) (mode : CompletionMode) :
    Option (String × String) :=
  match modelName, mode with
  | "claude-opus-4", CompletionMode.normal =>
    some ("claude-opus-4-requests", "claude_opus_4/requests")
  | "claude-opus-4", CompletionMode.max =>
    some ("claude-opus-4-requests-max", "claude_opus_4/requests/max")
  | "claude-sonnet-4", CompletionMode.normal =>
    some ("claude-sonnet-4-requests", "claude_sonnet_4/requests")
  | "claude-sonnet-4", CompletionMode.max =>
    some ("claude-sonnet-4-requests-max", "claude_sonnet_4/requests/max")
  | "claude-3-5-sonnet", _ =>
    some ("claude-3-5-sonnet-requests", "claude_3_5_sonnet/requests")
  | "claude-3-7-sonnet", CompletionMode.normal =>
    some ("claude-3-7-sonnet-requests", "claude_3_7_sonnet/requests")
  | "claude-3-7-sonnet", CompletionMode.max =>
    some ("claude-3-7-sonnet-requests-max", "claude_3_7_sonnet/requests/max")
  | _, _ => none

/-- The provider calls issued while syncing one account's usage:
`subscribe_to_price` calls as `(stripe subscription id, price)` and
`bill_model_request_usage` calls as
`(stripe customer id, meter event name, quantity)`, each in call order. -/
structure UsageSyncTrace where
  subscribed : List (String × String)
  reported : List (String × String × Int)
deriving DecidableEq, Repr

/-- The per-`(model, mode)` loop body of the usage sync, folded over the pair
list: a model that fails to load is skipped (`continue`); an unsupported
model name aborts the account (`bail!`); otherwise the meter count (default
zero when no meter matches) is looked up, the subscription is subscribed to
the metered price only when the count is nonzero, and the count is always
reported as a metered billing event. -/
def syncUsagePairs (lookupModel : String → Option LlmModel)
    (meters : List UsageMeter) (custId subId : String) :
    List (String × CompletionMode) → UsageSyncTrace → Except String UsageSyncTrace
  | [], tr => Except.ok tr
  | (modelName, mode) :: rest, tr =>
    match lookupModel modelName with
    | none => syncUsagePairs lookupModel meters custId subId rest tr
    | some model =>
      match priceAndMeterEventName model.name mode with
      | none => Except.error "Attempted to sync usage meter for unsupported model"
      | some pe =>
        let modelRequests :=
          ((meters.find? (fun m => m.modelId = model.id && m.mode = mode)).map
            (fun m => m.requests)).getD 0
        let tr1 :=
          if modelRequests > 0 then
            { tr with subscribed := tr.subscribed ++ [(subId, pe.1)] }
          else tr
        let tr2 := { tr1 with reported := tr1.reported ++ [(custId, pe.2, modelRequests)] }
        syncUsagePairs lookupModel meters custId subId rest tr2

/-- One account's iteration of `sync_model_request_usage_with_stripe`: staff
accounts are excluded up front (no provider calls at all); for everyone else
the `(model, mode)` matrix is walked as in `syncUsagePairs`. -/
def syncAccountUsage (lookupModel : String → Option LlmModel)
    (meters : List UsageMeter) (isStaff : Bool) (custId subId : String) :
    Except String UsageSyncTrace :=
  if isStaff then Except.ok ⟨[], []⟩
  else syncUsagePairs lookupModel meters custId subId model_mode_combinations ⟨[], []⟩

/-! Section: Concrete fixtures used by the pagination scenarios -/

/-- A bare event with no payload (only its id and timestamp matter to the
poller and the sort). -/
def evt (id : String) (created : Int) : Event :=
  ⟨id, EventType.Other, created, EventObject.other⟩

/-- Ledger membership for the pagination scenarios: events e1–e4 are already
processed. -/
def ledgerEx : String → Bool :=
  fun id => decide (id ∈ (["e1", "e2", "e3", "e4"] : List String))

/-- Page holding only the already-processed event e1. -/
def stalePage1 : EventsPage := ⟨[evt "e1" 1], true⟩

/-- Page holding only the already-processed event e2. -/
def stalePage2 : EventsPage := ⟨[evt "e2" 2], true⟩

/-- Page holding only the already-processed event e3. -/
def stalePage3 : EventsPage := ⟨[evt "e3" 3], true⟩

/-- Page holding only the already-processed event e4. -/
def stalePage4 : EventsPage := ⟨[evt "e4" 4], true⟩

/-- The fifth page, holding the new (never processed) event e5. -/
def freshPage5 : EventsPage := ⟨[evt "e5" 5], false⟩

/-- A page with an unprocessed event q1, used to show a non-stale page does
not reset the stale-page counter. -/
def freshPageQ : EventsPage := ⟨[evt "q1" 9], true⟩

/-! Theorems. -/

/-! Section: Batch ordering: the sort is correct -/

theorem eventLeB_eq_true_iff {a b : Event} : eventLeB a b = true ↔ eventLe a b := by
  simp [eventLeB, eventLe]

theorem eventLe_total (a b : Event) : eventLe a b ∨ eventLe b a := by
  rcases lt_trichotomy a.created b.created with h | h | h
  · exact Or.inl (Or.inl h)
  · rcases le_total a.id.data b.id.data with h2 | h2
    · exact Or.inl (Or.inr ⟨h, h2⟩)
    · exact Or.inr (Or.inr ⟨h.symm, h2⟩)
  · exact Or.inr (Or.inl h)

theorem eventLe_trans {a b c : Event} (h1 : eventLe a b) (h2 : eventLe b c) :
    eventLe a c := by
  rcases h1 with h1 | ⟨h1, h1'⟩ <;> rcases h2 with h2 | ⟨h2, h2'⟩
  · exact Or.inl (h1.trans h2)
  · exact Or.inl (h2 ▸ h1)
  · exact Or.inl (h1 ▸ h2)
  · exact Or.inr ⟨h1.trans h2, h1'.trans h2'⟩

theorem perm_insertEvent (e : Event) : ∀ l : List Event, (insertEvent e l).Perm (e :: l)
  | [] => List.Perm.refl _
  | x :: xs => by
    rw [insertEvent]
    split
    · exact List.Perm.refl _
    · exact ((perm_insertEvent e xs).cons x).trans (List.Perm.swap e x xs)

theorem sortEvents_perm : ∀ l : List Event, (sortEvents l).Perm l
  | [] => List.Perm.refl _
  | e :: es => by
    rw [sortEvents]
    exact (perm_insertEvent e (sortEvents es)).trans ((sortEvents_perm es).cons e)

theorem pairwise_insertEvent (e : Event) :
    ∀ l : List Event, l.Pairwise eventLe → (insertEvent e l).Pairwise eventLe
  | [], _ => by simp [insertEvent]
  | x :: xs, h => by
    rw [insertEvent]
    split
    next hle =>
      have hex : eventLe e x := eventLeB_eq_true_iff.mp hle
      refine List.Pairwise.cons ?_ h
      intro y hy
      rcases List.mem_cons.mp hy with rfl | hy
      · exact hex
      · exact eventLe_trans hex (List.rel_of_pairwise_cons h hy)
    next hle =>
      have hxe : eventLe x e := by
        rcases eventLe_total e x with h1 | h1
        · exact absurd (eventLeB_eq_true_iff.mpr h1) hle
        · exact h1
      have hpx := List.pairwise_cons.mp h
      refine List.Pairwise.cons ?_ (pairwise_insertEvent e xs hpx.2)
      intro y hy
      have hmem : y = e ∨ y ∈ xs := by
        have := (perm_insertEvent e xs).mem_iff.mp hy
        simpa using this
      rcases hmem with rfl | hy2
      · exact hxe
      · exact hpx.1 y hy2

theorem sortEvents_pairwise : ∀ l : List Event, (sortEvents l).Pairwise eventLe
  | [] => by simp [sortEvents]
  | e :: es => by
    rw [sortEvents]
    exact pairwise_insertEvent e _ (sortEvents_pairwise es)

/-- Claim C4: the batch handed to the dispatcher is sorted ascending by
`(created_at, event_id)` — creation timestamp primary, event id as the
tie-break — and is a permutation of the unprocessed events collected by the
pagination loop; in particular the events `{created=2,id=B}`,
`{created=1,id=A}`, `{created=1,id=C}` are processed in the order A, C, B. -/
theorem C4_batch_sorted_by_created_then_id :
    (∀ (isProcessed : String → Bool) (pages : List EventsPage),
        (pollUnprocessedBatch isProcessed pages).Pairwise eventLe ∧
        (pollUnprocessedBatch isProcessed pages).Perm (pollPages isProcessed pages 0)) ∧
    sortEvents [evt "B" 2, evt "A" 1, evt "C" 1] = [evt "A" 1, evt "C" 1, evt "B" 2] := by
  constructor
  · intro isProcessed pages
    exact ⟨sortEvents_pairwise _, sortEvents_perm _⟩
  · decide

/-! Section: Pagination stop -/

theorem stalePage_filter_nil (isProcessed : String → Bool) (p : EventsPage)
    (h : p.data.countP (fun e => isProcessed e.id) = p.data.length) :
    p.data.filter (fun e => !isProcessed e.id) = [] := by
  rw [List.filter_eq_nil_iff]
  intro a ha
  have hpa := List.countP_eq_length.mp h a ha
  simp only [hpa, not_true_eq_false, Bool.not_true, Bool.false_eq_true,
    not_false_eq_true]

theorem pollPages_stale_stop (isProcessed : String → Bool) (p : EventsPage)
    (rest : List EventsPage) (n : Nat)
    (hst : p.data.countP (fun e => isProcessed e.id) = p.data.length)
    (hm : p.hasMore = true)
    (hge : NUMBER_OF_ALREADY_PROCESSED_PAGES_BEFORE_WE_STOP ≤ n + 1) :
    pollPages isProcessed (p :: rest) n = [] := by
  have hfil := stalePage_filter_nil isProcessed p hst
  simp only [pollPages]
  rw [hfil, hst, if_pos rfl, hm]
  simp only [if_true]
  rw [if_pos hge]

theorem pollPages_stale_next (isProcessed : String → Bool) (p : EventsPage)
    (rest : List EventsPage) (n : Nat)
    (hst : p.data.countP (fun e => isProcessed e.id) = p.data.length)
    (hm : p.hasMore = true)
    (hlt : n + 1 < NUMBER_OF_ALREADY_PROCESSED_PAGES_BEFORE_WE_STOP) :
    pollPages isProcessed (p :: rest) n = pollPages isProcessed rest (n + 1) := by
  have hfil := stalePage_filter_nil isProcessed p hst
  simp only [pollPages]
  rw [hfil, hst, if_pos rfl, hm]
  simp only [if_true]
  rw [if_neg (by omega), List.nil_append]

theorem pollPages_fresh_next (isProcessed : String → Bool) (p : EventsPage)
    (rest : List EventsPage) (n : Nat)
    (hfr : p.data.countP (fun e => isProcessed e.id) ≠ p.data.length)
    (hm : p.hasMore = true)
    (hlt : n < NUMBER_OF_ALREADY_PROCESSED_PAGES_BEFORE_WE_STOP) :
    pollPages isProcessed (p :: rest) n =
      p.data.filter (fun e => !isProcessed e.id) ++ pollPages isProcessed rest n := by
  simp only [pollPages]
  rw [if_neg hfr, hm]
  simp only [if_true]
  rw [if_neg (by omega)]

/-- Claim C1 (counterexample): a ledger in which pages 1–4 consist entirely of
already-processed events and page 5 holds the new event e5 — the poller
returns the empty batch, so page 5's new event is not fetched, refuting the
claim that page 5 is still fetched and its new events returned. -/
theorem C1_pagination_stop_counterexample :
    (∀ p ∈ [stalePage1, stalePage2, stalePage3, stalePage4],
        p.data.countP (fun e => ledgerEx e.id) = p.data.length ∧ p.hasMore = true) ∧
    ledgerEx "e5" = false ∧
    freshPage5.data = [evt "e5" 5] ∧
    pollPages ledgerEx [stalePage1, stalePage2, stalePage3, stalePage4, freshPage5] 0
      = [] := by decide

/-- Claim C1 (amended): the stale-page count starts at zero, increments on
each entirely-already-processed page, and never resets; pagination stops at
the first page where the count has reached 4 while more pages remain,
returning that page's own unprocessed events but fetching no further page.
In particular (first conjunct), with pages 1–4 fully processed and more
pages available, page 5 is never fetched and its new events are not
returned; and (second conjunct) a page containing unprocessed events does
not reset the count: with a fresh page interleaved after the first of four
fully-processed pages, pagination still stops at the fourth stale page and
only the fresh page's events are returned. -/
theorem C1_pagination_stop_amended (isProcessed : String → Bool)
    (p1 p2 p3 p4 q : EventsPage) (rest rest' : List EventsPage)
    (h1 : p1.data.countP (fun e => isProcessed e.id) = p1.data.length)
    (h2 : p2.data.countP (fun e => isProcessed e.id) = p2.data.length)
    (h3 : p3.data.countP (fun e => isProcessed e.id) = p3.data.length)
    (h4 : p4.data.countP (fun e => isProcessed e.id) = p4.data.length)
    (hm1 : p1.hasMore = true) (hm2 : p2.hasMore = true)
    (hm3 : p3.hasMore = true) (hm4 : p4.hasMore = true)
    (hq : q.data.countP (fun e => isProcessed e.id) ≠ q.data.length)
    (hmq : q.hasMore = true) :
    pollPages isProcessed (p1 :: p2 :: p3 :: p4 :: rest) 0 = [] ∧
    pollPages isProcessed (p1 :: q :: p2 :: p3 :: p4 :: rest') 0 =
      q.data.filter (fun e => !isProcessed e.id) := by
  constructor
  · rw [pollPages_stale_next isProcessed p1 _ 0 h1 hm1 (by decide),
      pollPages_stale_next isProcessed p2 _ 1 h2 hm2 (by decide),
      pollPages_stale_next isProcessed p3 _ 2 h3 hm3 (by decide),
      pollPages_stale_stop isProcessed p4 _ 3 h4 hm4 (by decide)]
  · rw [pollPages_stale_next isProcessed p1 _ 0 h1 hm1 (by decide),
      pollPages_fresh_next isProcessed q _ 1 hq hmq (by decide),
      pollPages_stale_next isProcessed p2 _ 1 h2 hm2 (by decide),
      pollPages_stale_next isProcessed p3 _ 2 h3 hm3 (by decide),
      pollPages_stale_stop isProcessed p4 _ 3 h4 hm4 (by decide),
      List.append_nil]

/-- Witness for the amended C1 theorem at a concrete ledger and page layout. -/
theorem C1_pagination_stop_amended_witness :
    pollPages ledgerEx [stalePage1, stalePage2, stalePage3, stalePage4, freshPage5] 0
      = [] ∧
    pollPages ledgerEx
        [stalePage1, freshPageQ, stalePage2, stalePage3, stalePage4, freshPage5] 0
      = [evt "q1" 9] := by
  have h := C1_pagination_stop_amended ledgerEx stalePage1 stalePage2 stalePage3
    stalePage4 freshPageQ [freshPage5] [freshPage5]
    (by decide) (by decide) (by decide) (by decide)
    (by decide) (by decide) (by decide) (by decide)
    (by decide) (by decide)
  exact ⟨h.1, by rw [h.2]; decide⟩

/-! Section: Dispatcher: ledger writes and the per-event loop -/

theorem dispatch_log_ids {σ : Type} (now : Int) (process : σ → Event → Except String σ) :
    ∀ (events : List Event) (st : σ),
      (dispatchEvents now process st events).log.map Prod.fst = events.map Event.id
  | [], _ => rfl
  | e :: rest, st => by
    by_cases hst : staleCutoff now > e.created
    · simp only [dispatchEvents, if_pos hst, List.map_cons]
      rw [dispatch_log_ids now process rest st]
    · cases hp : process st e with
      | ok st' =>
        simp only [dispatchEvents, if_neg hst, hp, List.map_cons]
        rw [dispatch_log_ids now process rest st']
      | error m =>
        simp only [dispatchEvents, if_neg hst, hp, List.map_cons]
        rw [dispatch_log_ids now process rest st]

theorem dispatch_writes_subset {σ : Type} (now : Int)
    (process : σ → Event → Except String σ) :
    ∀ (events : List Event) (st : σ) (x : String),
      x ∈ (dispatchEvents now process st events).writes → x ∈ events.map Event.id
  | [], _, x, hx => by cases hx
  | e :: rest, st, x, hx => by
    by_cases hst : staleCutoff now > e.created
    · simp only [dispatchEvents, if_pos hst] at hx
      rcases List.mem_cons.mp hx with rfl | hx'
      · exact List.mem_cons_self _ _
      · exact List.mem_cons_of_mem _ (dispatch_writes_subset now process rest st x hx')
    · cases hp : process st e with
      | ok st' =>
        simp only [dispatchEvents, if_neg hst, hp] at hx
        rcases List.mem_cons.mp hx with rfl | hx'
        · exact List.mem_cons_self _ _
        · exact List.mem_cons_of_mem _ (dispatch_writes_subset now process rest st' x hx')
      | error m =>
        simp only [dispatchEvents, if_neg hst, hp] at hx
        exact List.mem_cons_of_mem _ (dispatch_writes_subset now process rest st x hx)

theorem dispatch_invoked_subset {σ : Type} (now : Int)
    (process : σ → Event → Except String σ) :
    ∀ (events : List Event) (st : σ) (x : String),
      x ∈ (dispatchEvents now process st events).invoked → x ∈ events.map Event.id
  | [], _, x, hx => by cases hx
  | e :: rest, st, x, hx => by
    by_cases hst : staleCutoff now > e.created
    · simp only [dispatchEvents, if_pos hst] at hx
      exact List.mem_cons_of_mem _ (dispatch_invoked_subset now process rest st x hx)
    · cases hp : process st e with
      | ok st' =>
        simp only [dispatchEvents, if_neg hst, hp] at hx
        rcases List.mem_cons.mp hx with rfl | hx'
        · exact List.mem_cons_self _ _
        · exact List.mem_cons_of_mem _ (dispatch_invoked_subset now process rest st' x hx')
      | error m =>
        simp only [dispatchEvents, if_neg hst, hp] at hx
        rcases List.mem_cons.mp hx with rfl | hx'
        · exact List.mem_cons_self _ _
        · exact List.mem_cons_of_mem _ (dispatch_invoked_subset now process rest st x hx')

theorem dispatch_ok_write {σ : Type} (now : Int)
    (process : σ → Event → Except String σ) :
    ∀ (events : List Event) (st : σ) (x : String),
      (x, Outcome.handledOk) ∈ (dispatchEvents now process st events).log →
      x ∈ (dispatchEvents now process st events).writes
  | [], _, x, hx => by cases hx
  | e :: rest, st, x, hx => by
    by_cases hst : staleCutoff now > e.created
    · simp only [dispatchEvents, if_pos hst] at hx ⊢
      rcases List.mem_cons.mp hx with heq | hx'
      · cases heq
      · exact List.mem_cons_of_mem _ (dispatch_ok_write now process rest st x hx')
    · cases hp : process st e with
      | ok st' =>
        simp only [dispatchEvents, if_neg hst, hp] at hx ⊢
        rcases List.mem_cons.mp hx with heq | hx'
        · rw [Prod.mk.injEq] at heq
          exact heq.1 ▸ List.mem_cons_self _ _
        · exact List.mem_cons_of_mem _ (dispatch_ok_write now process rest st' x hx')
      | error m =>
        simp only [dispatchEvents, if_neg hst, hp] at hx ⊢
        rcases List.mem_cons.mp hx with heq | hx'
        · cases heq
        · exact dispatch_ok_write now process rest st x hx'

theorem dispatch_stale_write {σ : Type} (now : Int)
    (process : σ → Event → Except String σ) :
    ∀ (events : List Event) (st : σ) (x : String),
      (x, Outcome.markedStale) ∈ (dispatchEvents now process st events).log →
      x ∈ (dispatchEvents now process st events).writes
  | [], _, x, hx => by cases hx
  | e :: rest, st, x, hx => by
    by_cases hst : staleCutoff now > e.created
    · simp only [dispatchEvents, if_pos hst] at hx ⊢
      rcases List.mem_cons.mp hx with heq | hx'
      · rw [Prod.mk.injEq] at heq
        exact heq.1 ▸ List.mem_cons_self _ _
      · exact List.mem_cons_of_mem _ (dispatch_stale_write now process rest st x hx')
    · cases hp : process st e with
      | ok st' =>
        simp only [dispatchEvents, if_neg hst, hp] at hx ⊢
        rcases List.mem_cons.mp hx with heq | hx'
        · cases heq
        · exact List.mem_cons_of_mem _ (dispatch_stale_write now process rest st' x hx')
      | error m =>
        simp only [dispatchEvents, if_neg hst, hp] at hx ⊢
        rcases List.mem_cons.mp hx with heq | hx'
        · cases heq
        · exact dispatch_stale_write now process rest st x hx'

theorem dispatch_err_not_write {σ : Type} (now : Int)
    (process : σ → Event → Except String σ) :
    ∀ (events : List Event) (st : σ) (x : String),
      (events.map Event.id).Nodup →
      (x, Outcome.handledErr) ∈ (dispatchEvents now process st events).log →
      x ∉ (dispatchEvents now process st events).writes
  | [], _, x, _, hx => by cases hx
  | e :: rest, st, x, hnd, hx => by
    have hnd' := (List.nodup_cons.mp hnd).2
    have hhead := (List.nodup_cons.mp hnd).1
    by_cases hst : staleCutoff now > e.created
    · simp only [dispatchEvents, if_pos hst] at hx ⊢
      rcases List.mem_cons.mp hx with heq | hx'
      · cases heq
      · have hxrest : x ∈ rest.map Event.id := by
          have := List.mem_map_of_mem Prod.fst hx'
          rwa [dispatch_log_ids now process rest st] at this
        intro hw
        rcases List.mem_cons.mp hw with rfl | hw'
        · exact hhead hxrest
        · exact dispatch_err_not_write now process rest st x hnd' hx' hw'
    · cases hp : process st e with
      | ok st' =>
        simp only [dispatchEvents, if_neg hst, hp] at hx ⊢
        rcases List.mem_cons.mp hx with heq | hx'
        · cases heq
        · have hxrest : x ∈ rest.map Event.id := by
            have := List.mem_map_of_mem Prod.fst hx'
            rwa [dispatch_log_ids now process rest st'] at this
          intro hw
          rcases List.mem_cons.mp hw with rfl | hw'
          · exact hhead hxrest
          · exact dispatch_err_not_write now process rest st' x hnd' hx' hw'
      | error m =>
        simp only [dispatchEvents, if_neg hst, hp] at hx ⊢
        rcases List.mem_cons.mp hx with heq | hx'
        · rw [Prod.mk.injEq] at heq
          intro hw
          exact hhead (heq.1 ▸ dispatch_writes_subset now process rest st x hw)
        · exact dispatch_err_not_write now process rest st x hnd' hx'

/-- Claim C3: over any dispatch of a batch, (1) every event of the batch gets
exactly one outcome, in batch order — a failing handler never prevents the
subsequent events from being processed — and (2) when the batch's event ids
are distinct, an event whose handler succeeded has its processed-event
ledger record written and an event whose handler failed does not (so it will
be retried on the next poll). -/
theorem C3_ledger_write_iff_handler_ok {σ : Type} (now : Int)
    (process : σ → Event → Except String σ) (st : σ) (events : List Event) :
    ((dispatchEvents now process st events).log.map Prod.fst = events.map Event.id) ∧
    ((events.map Event.id).Nodup →
      ∀ e ∈ events,
        ((e.id, Outcome.handledOk) ∈ (dispatchEvents now process st events).log →
          e.id ∈ (dispatchEvents now process st events).writes) ∧
        ((e.id, Outcome.handledErr) ∈ (dispatchEvents now process st events).log →
          e.id ∉ (dispatchEvents now process st events).writes)) := by
  refine ⟨dispatch_log_ids now process events st, fun hnd e _ => ?_⟩
  exact ⟨dispatch_ok_write now process events st e.id,
    dispatch_err_not_write now process events st e.id hnd⟩

/-- Witness for C3 at a concrete three-event batch whose middle event's
handler fails: the failing event's record is withheld while both others are
written, and all three events are processed in order. -/
theorem C3_ledger_write_iff_handler_ok_witness :
    ("b" ∉ (dispatchEvents 100
        (fun (_ : Unit) (e : Event) =>
          if e.id = "b" then Except.error "boom" else Except.ok ())
        () [evt "a" 100, evt "b" 100, evt "c" 100]).writes) ∧
    ((dispatchEvents 100
        (fun (_ : Unit) (e : Event) =>
          if e.id = "b" then Except.error "boom" else Except.ok ())
        () [evt "a" 100, evt "b" 100, evt "c" 100]).log.map Prod.fst
      = ["a", "b", "c"]) := by
  have h := C3_ledger_write_iff_handler_ok 100
    (fun (_ : Unit) (e : Event) =>
      if e.id = "b" then Except.error "boom" else Except.ok ())
    () [evt "a" 100, evt "b" 100, evt "c" 100]
  refine ⟨(h.2 (by decide) (evt "b" 100) (by decide)).2 (by decide), ?_⟩
  rw [h.1]
  decide

theorem dispatch_stale_log {σ : Type} (now : Int)
    (process : σ → Event → Except String σ) :
    ∀ (events : List Event) (st : σ) (e : Event),
      e ∈ events → staleCutoff now > e.created →
      (e.id, Outcome.markedStale) ∈ (dispatchEvents now process st events).log
  | [], _, _, he, _ => by cases he
  | a :: rest, st, e, he, hstale => by
    rcases List.mem_cons.mp he with rfl | he'
    · simp only [dispatchEvents, if_pos hstale]
      exact List.mem_cons_self _ _
    · by_cases hst : staleCutoff now > a.created
      · simp only [dispatchEvents, if_pos hst]
        exact List.mem_cons_of_mem _
          (dispatch_stale_log now process rest st e he' hstale)
      · cases hp : process st a with
        | ok st' =>
          simp only [dispatchEvents, if_neg hst, hp]
          exact List.mem_cons_of_mem _
            (dispatch_stale_log now process rest st' e he' hstale)
        | error m =>
          simp only [dispatchEvents, if_neg hst, hp]
          exact List.mem_cons_of_mem _
            (dispatch_stale_log now process rest st e he' hstale)

theorem dispatch_stale_not_invoked {σ : Type} (now : Int)
    (process : σ → Event → Except String σ) :
    ∀ (events : List Event) (st : σ) (e : Event),
      (events.map Event.id).Nodup → e ∈ events → staleCutoff now > e.created →
      e.id ∉ (dispatchEvents now process st events).invoked
  | [], _, _, _, he, _ => by cases he
  | a :: rest, st, e, hnd, he, hstale => by
    have hnd' := (List.nodup_cons.mp hnd).2
    have hhead := (List.nodup_cons.mp hnd).1
    rcases List.mem_cons.mp he with rfl | he'
    · simp only [dispatchEvents, if_pos hstale]
      intro hinv
      exact hhead (dispatch_invoked_subset now process rest st e.id hinv)
    · have hne : e.id ≠ a.id := by
        intro hid
        exact hhead (hid ▸ List.mem_map_of_mem Event.id he')
      by_cases hst : staleCutoff now > a.created
      · simp only [dispatchEvents, if_pos hst]
        exact dispatch_stale_not_invoked now process rest st e hnd' he' hstale
      · cases hp : process st a with
        | ok st' =>
          simp only [dispatchEvents, if_neg hst, hp]
          intro hinv
          rcases List.mem_cons.mp hinv with heq | hinv'
          · exact hne heq
          · exact dispatch_stale_not_invoked now process rest st' e hnd' he' hstale hinv'
        | error m =>
          simp only [dispatchEvents, if_neg hst, hp]
          intro hinv
          rcases List.mem_cons.mp hinv with heq | hinv'
          · exact hne heq
          · exact dispatch_stale_not_invoked now process rest st e hnd' he' hstale hinv'

/-- Claim C5: an event created more than 24 hours before the current time is
marked processed in the ledger immediately — its outcome is the stale
short-circuit, its ledger record is written — and no handler is invoked for
it. -/
theorem C5_stale_event_marked_without_handler {σ : Type} (now : Int)
    (process : σ → Event → Except String σ) (st : σ) (events : List Event)
    (e : Event) (hnd : (events.map Event.id).Nodup) (he : e ∈ events)
    (hstale : staleCutoff now > e.created) :
    (e.id, Outcome.markedStale) ∈ (dispatchEvents now process st events).log ∧
    e.id ∈ (dispatchEvents now process st events).writes ∧
    e.id ∉ (dispatchEvents now process st events).invoked := by
  have hlog := dispatch_stale_log now process events st e he hstale
  exact ⟨hlog, dispatch_stale_write now process events st e.id hlog,
    dispatch_stale_not_invoked now process events st e hnd he hstale⟩

/-- Witness for C5: an event two days old among fresh ones is ledger-marked
and its handler is never run. -/
theorem C5_stale_event_marked_without_handler_witness :
    ((evt "old" 0).id, Outcome.markedStale) ∈
      (dispatchEvents 200000 (fun (st : Unit) (_ : Event) => Except.ok st) ()
        [evt "old" 0, evt "new" 199999]).log ∧
    (evt "old" 0).id ∈
      (dispatchEvents 200000 (fun (st : Unit) (_ : Event) => Except.ok st) ()
        [evt "old" 0, evt "new" 199999]).writes ∧
    (evt "old" 0).id ∉
      (dispatchEvents 200000 (fun (st : Unit) (_ : Event) => Except.ok st) ()
        [evt "old" 0, evt "new" 199999]).invoked :=
  C5_stale_event_marked_without_handler 200000
    (fun (st : Unit) (_ : Event) => Except.ok st) ()
    [evt "old" 0, evt "new" 199999] (evt "old" 0)
    (by decide) (by decide) (by decide)

/-! Section: Synchronizer: store-shape lemmas -/

theorem updateBillingCustomer_subscriptions (db : Db) (cid : Nat)
    (p : UpdateBillingCustomerParams) :
    (updateBillingCustomer db cid p).subscriptions = db.subscriptions := rfl

theorem updateSubscriptionRow_customers (db : Db) (rowId customerId : Nat)
    (kind : Option SubscriptionKind) (s : StripeSubscription) :
    (updateSubscriptionRow db rowId customerId kind s).customers = db.customers := rfl

theorem createBillingSubscriptionRow_customers (db : Db) (customerId : Nat)
    (kind : Option SubscriptionKind) (s : StripeSubscription) :
    (createBillingSubscriptionRow db customerId kind s).customers = db.customers := rfl

theorem freePlanFallback_db (db : Db) (provider : ProviderState)
    (bc : BillingCustomer) (s : StripeSubscription) :
    (freePlanFallback db provider bc s).db = db := by
  unfold freePlanFallback
  split <;> rfl

theorem freePlanFallback_customer (db : Db) (provider : ProviderState)
    (bc : BillingCustomer) (s : StripeSubscription) :
    (freePlanFallback db provider bc s).customer = bc := by
  unfold freePlanFallback
  split <;> rfl

theorem applyCustomerUpdate_id (p : UpdateBillingCustomerParams)
    (c : BillingCustomer) : (applyCustomerUpdate p c).id = c.id := rfl

theorem applyCustomerUpdate_userId (p : UpdateBillingCustomerParams)
    (c : BillingCustomer) : (applyCustomerUpdate p c).userId = c.userId := rfl

theorem subscriptionBelongsTo_updateCustomer (db : Db) (cid : Nat)
    (p : UpdateBillingCustomerParams) (row : BillingSubscription) (userId : Nat) :
    subscriptionBelongsTo (updateBillingCustomer db cid p) row userId =
      subscriptionBelongsTo db row userId := by
  unfold subscriptionBelongsTo updateBillingCustomer
  simp only
  rw [List.find?_map]
  have hq : ((fun c => decide (c.id = row.billingCustomerId)) ∘
      fun c => if c.id = cid then applyCustomerUpdate p c else c) =
      fun c => decide (c.id = row.billingCustomerId) := by
    funext c
    by_cases h : c.id = cid <;> simp [h, applyCustomerUpdate]
  rw [hq]
  cases hfind : db.customers.find? (fun c => decide (c.id = row.billingCustomerId)) with
  | none => rfl
  | some c =>
    simp only [Option.map_some']
    by_cases h : c.id = cid <;> simp [h, applyCustomerUpdate]

theorem getActive_updateCustomer (db : Db) (cid : Nat)
    (p : UpdateBillingCustomerParams) (userId : Nat) :
    getActiveBillingSubscription (updateBillingCustomer db cid p) userId =
      getActiveBillingSubscription db userId := by
  unfold getActiveBillingSubscription
  rw [updateBillingCustomer_subscriptions]
  have hq : (fun row => subscriptionBelongsTo (updateBillingCustomer db cid p) row userId
        && isActiveStatus row.status) =
      fun row => subscriptionBelongsTo db row userId && isActiveStatus row.status := by
    funext row
    rw [subscriptionBelongsTo_updateCustomer]
  rw [hq]

theorem find_customer_update (l : List BillingCustomer) (cid : Nat)
    (p : UpdateBillingCustomerParams) (c : BillingCustomer)
    (h : l.find? (fun x => x.id = cid) = some c) :
    (l.map (fun x => if x.id = cid then applyCustomerUpdate p x else x)).find?
        (fun x => x.id = cid) = some (applyCustomerUpdate p c) := by
  rw [List.find?_map]
  have hq : ((fun x => decide (x.id = cid)) ∘
      fun x => if x.id = cid then applyCustomerUpdate p x else x) =
      fun x => decide (x.id = cid) := by
    funext x
    by_cases hx : x.id = cid <;> simp [hx, applyCustomerUpdate]
  rw [hq, h]
  simp only [Option.map_some']
  have hc : c.id = cid := by simpa using List.find?_some h
  rw [if_pos hc]

/-- Claim C2 (counterexample): a Customer whose `trial_started_at` is already
set (to 100) receives a trialing trial snapshot whose period starts at 200;
the synchronizer overwrites the timestamp with 200 instead of leaving it
unchanged. -/
theorem C2_trial_start_counterexample :
    ((⟨[⟨1, 10, "cus_1", some 100, false⟩], [], [], 2, 1⟩ : Db).customers.map
        (fun c => c.trialStartedAt) = [some 100]) ∧
    ((sync_subscription (fun _ => some SubscriptionKind.ZedProTrial) (fun _ => none)
          ⟨[⟨1, 10, "cus_1", some 100, false⟩], [], [], 2, 1⟩ ⟨[], [], []⟩
          ⟨"sub_new", "cus_1", SubscriptionStatus.Trialing, 200, 300, none,
            none⟩).toOption.map
        (fun r => r.db.customers.map (fun c => c.trialStartedAt)))
      = some [some 200] := by decide

/-- Claim C2 (amended): whenever the snapshot is classified as a trial and its
status is trialing, the synchronizer sets the resolved Customer's
`trial_started_at` to the snapshot's period start — overwriting any value
it already had; the field is not set-once in this code. -/
theorem C2_trial_start_overwritten (classify : StripeSubscription → Option SubscriptionKind)
    (getCustomerEmail : String → Option String) (db : Db) (provider : ProviderState)
    (s : StripeSubscription) (c : BillingCustomer)
    (hclass : classify s = some SubscriptionKind.ZedProTrial)
    (hstatus : s.status = SubscriptionStatus.Trialing)
    (hfind : getBillingCustomerByStripeCustomerId db s.customer = some c) :
    ∃ r, sync_subscription classify getCustomerEmail db provider s = Except.ok r ∧
      ((r.db.customers.find? (fun x => x.id = c.id)).map (fun x => x.trialStartedAt))
        = some (some s.currentPeriodStart) := by
  unfold sync_subscription findOrCreateBillingCustomer
  rw [hfind]
  refine ⟨_, rfl, ?_⟩
  simp only [syncAfterCustomer, applyTrialAndOverdueFlags, hclass, hstatus,
    eq_self_iff_true, and_self, if_true, reduceCtorEq, false_and, if_false]
  have hcust : ∀ (x : SyncResult),
      (x.db.customers =
        (updateBillingCustomer db c.id
          { trialStartedAt := some (some s.currentPeriodStart) }).customers) →
      ((x.db.customers.find? (fun y => y.id = c.id)).map (fun y => y.trialStartedAt))
        = some (some s.currentPeriodStart) := by
    intro x hx
    rw [hx]
    have hmem : c ∈ db.customers := List.mem_of_find?_eq_some hfind
    have hsome : (db.customers.find? (fun y => y.id = c.id)).isSome := by
      rw [List.find?_isSome]
      exact ⟨c, hmem, by simp⟩
    rcases Option.isSome_iff_exists.mp hsome with ⟨a, ha⟩
    unfold updateBillingCustomer
    simp only
    rw [find_customer_update db.customers c.id _ a ha]
    simp [applyCustomerUpdate]
  split
  · exact hcust _ (by rw [freePlanFallback_db, updateSubscriptionRow_customers])
  · split
    · split
      · exact hcust _ (by rw [freePlanFallback_db, createBillingSubscriptionRow_customers])
      · exact hcust _ rfl
    · exact hcust _ (by rw [freePlanFallback_db, createBillingSubscriptionRow_customers])

/-- Witness for the amended C2 theorem: the overwrite observed at the concrete
store of the counterexample. -/
theorem C2_trial_start_overwritten_witness :
    ∃ r, sync_subscription (fun _ => some SubscriptionKind.ZedProTrial) (fun _ => none)
        ⟨[⟨1, 10, "cus_1", some 100, false⟩], [], [], 2, 1⟩ ⟨[], [], []⟩
        ⟨"sub_new", "cus_1", SubscriptionStatus.Trialing, 200, 300, none, none⟩
      = Except.ok r ∧
      ((r.db.customers.find? (fun x => x.id = 1)).map (fun x => x.trialStartedAt))
        = some (some 200) :=
  C2_trial_start_overwritten (fun _ => some SubscriptionKind.ZedProTrial)
    (fun _ => none) ⟨[⟨1, 10, "cus_1", some 100, false⟩], [], [], 2, 1⟩ ⟨[], [], []⟩
    ⟨"sub_new", "cus_1", SubscriptionStatus.Trialing, 200, 300, none, none⟩
    ⟨1, 10, "cus_1", some 100, false⟩ rfl rfl (by decide)

theorem applyFlags_subscriptions (kind : Option SubscriptionKind) (db : Db)
    (bc : BillingCustomer) (s : StripeSubscription) :
    (applyTrialAndOverdueFlags kind db bc s).subscriptions = db.subscriptions := by
  unfold applyTrialAndOverdueFlags
  split <;> split <;> rfl

theorem applyFlags_getActive (kind : Option SubscriptionKind) (db : Db)
    (bc : BillingCustomer) (s : StripeSubscription) (userId : Nat) :
    getActiveBillingSubscription (applyTrialAndOverdueFlags kind db bc s) userId =
      getActiveBillingSubscription db userId := by
  unfold applyTrialAndOverdueFlags
  split <;> split <;> simp only [getActive_updateCustomer]

/-- Claim C6: a subscription snapshot with no matching local row, arriving for
a Customer who already has an active subscription that is not the
free-plan-upgraded-by-trial case, creates no new Subscription row, issues no
provider effects, and returns success (so the event gets marked
processed). -/
theorem C6_conflict_skip (classify : StripeSubscription → Option SubscriptionKind)
    (getCustomerEmail : String → Option String) (db : Db) (provider : ProviderState)
    (s : StripeSubscription) (c : BillingCustomer) (act : BillingSubscription)
    (hfind : getBillingCustomerByStripeCustomerId db s.customer = some c)
    (hrow : db.subscriptions.find? (fun row => row.stripeSubscriptionId = s.id) = none)
    (hact : getActiveBillingSubscription db c.userId = some act)
    (hnot : ¬(act.kind = some SubscriptionKind.ZedFree
        ∧ classify s = some SubscriptionKind.ZedProTrial)) :
    ∃ r, sync_subscription classify getCustomerEmail db provider s = Except.ok r ∧
      r.db.subscriptions = db.subscriptions ∧ r.provider = provider := by
  unfold sync_subscription findOrCreateBillingCustomer
  rw [hfind]
  refine ⟨_, rfl, ?_⟩
  simp only [syncAfterCustomer]
  rw [applyFlags_subscriptions, hrow]
  dsimp only
  rw [applyFlags_getActive, hact]
  dsimp only
  rw [if_neg hnot]
  exact ⟨applyFlags_subscriptions _ _ _ _, rfl⟩

/-- Claim C7: a Customer with an active free-plan Subscription who receives a
new trialing trial snapshot with no matching local row has the free
subscription canceled at the provider, gets a new trial Subscription row,
and is left with exactly one active provider subscription — the trial. -/
theorem C7_free_to_trial_upgrade (classify : StripeSubscription → Option SubscriptionKind)
    (getCustomerEmail : String → Option String) (db : Db) (provider : ProviderState)
    (s : StripeSubscription) (c : BillingCustomer) (act : BillingSubscription)
    (hfind : getBillingCustomerByStripeCustomerId db s.customer = some c)
    (hrow : db.subscriptions.find? (fun row => row.stripeSubscriptionId = s.id) = none)
    (hact : getActiveBillingSubscription db c.userId = some act)
    (hfree : act.kind = some SubscriptionKind.ZedFree)
    (hclass : classify s = some SubscriptionKind.ZedProTrial)
    (hstatus : s.status = SubscriptionStatus.Trialing)
    (hprov : provider.subStatuses =
      [(act.stripeSubscriptionId, SubscriptionStatus.Active),
       (s.id, SubscriptionStatus.Trialing)])
    (hne : act.stripeSubscriptionId ≠ s.id) :
    ∃ r, sync_subscription classify getCustomerEmail db provider s = Except.ok r ∧
      r.provider.canceledSubs = act.stripeSubscriptionId :: provider.canceledSubs ∧
      (∃ row ∈ r.db.subscriptions, row.stripeSubscriptionId = s.id ∧
        row.kind = some SubscriptionKind.ZedProTrial ∧
        row.status = SubscriptionStatus.Trialing) ∧
      activeProviderSubIds r.provider = [s.id] := by
  unfold sync_subscription findOrCreateBillingCustomer
  rw [hfind]
  refine ⟨_, rfl, ?_⟩
  simp only [syncAfterCustomer]
  rw [applyFlags_subscriptions, hrow]
  dsimp only
  rw [applyFlags_getActive, hact, hclass]
  dsimp only
  rw [if_pos ⟨hfree, rfl⟩]
  unfold freePlanFallback
  rw [if_neg (by simp [hstatus])]
  have hne' : s.id ≠ act.stripeSubscriptionId := fun h => hne h.symm
  refine ⟨rfl, ?_, ?_⟩
  · refine ⟨_, List.mem_append_right _ (List.mem_singleton_self _), rfl, rfl, hstatus⟩
  · simp [activeProviderSubIds, cancelSubscription, hprov, hne', isActiveStatus]

/-- Witness for C6: a customer with an active paid (Zed Pro) subscription
receives a snapshot for a different provider subscription id; no row is
created and no provider call is made. -/
theorem C6_conflict_skip_witness :
    ∃ r, sync_subscription (fun _ => some SubscriptionKind.ZedPro) (fun _ => none)
        ⟨[⟨1, 10, "cus_1", none, false⟩],
         [⟨1, 1, some SubscriptionKind.ZedPro, "sub_A", SubscriptionStatus.Active,
           none, none, some 0, some 10⟩], [], 2, 2⟩
        ⟨[], [], []⟩
        ⟨"sub_B", "cus_1", SubscriptionStatus.Active, 50, 60, none, none⟩
      = Except.ok r ∧
      r.db.subscriptions =
        [⟨1, 1, some SubscriptionKind.ZedPro, "sub_A", SubscriptionStatus.Active,
          none, none, some 0, some 10⟩] ∧
      r.provider = ⟨[], [], []⟩ :=
  C6_conflict_skip (fun _ => some SubscriptionKind.ZedPro) (fun _ => none)
    ⟨[⟨1, 10, "cus_1", none, false⟩],
     [⟨1, 1, some SubscriptionKind.ZedPro, "sub_A", SubscriptionStatus.Active,
       none, none, some 0, some 10⟩], [], 2, 2⟩
    ⟨[], [], []⟩
    ⟨"sub_B", "cus_1", SubscriptionStatus.Active, 50, 60, none, none⟩
    ⟨1, 10, "cus_1", none, false⟩
    ⟨1, 1, some SubscriptionKind.ZedPro, "sub_A", SubscriptionStatus.Active,
      none, none, some 0, some 10⟩
    (by decide) (by decide) (by decide) (by decide)

/-- Witness for C7: a free subscription is canceled at the provider and the
trial row is created, leaving the trial as the only active provider
subscription. -/
theorem C7_free_to_trial_upgrade_witness :
    ∃ r, sync_subscription (fun _ => some SubscriptionKind.ZedProTrial) (fun _ => none)
        ⟨[⟨1, 10, "cus_1", none, false⟩],
         [⟨1, 1, some SubscriptionKind.ZedFree, "sub_free", SubscriptionStatus.Active,
           none, none, some 0, some 10⟩], [], 2, 2⟩
        ⟨[("sub_free", SubscriptionStatus.Active),
          ("sub_trial", SubscriptionStatus.Trialing)], [], []⟩
        ⟨"sub_trial", "cus_1", SubscriptionStatus.Trialing, 50, 60, none, none⟩
      = Except.ok r ∧
      r.provider.canceledSubs = ["sub_free"] ∧
      (∃ row ∈ r.db.subscriptions, row.stripeSubscriptionId = "sub_trial" ∧
        row.kind = some SubscriptionKind.ZedProTrial ∧
        row.status = SubscriptionStatus.Trialing) ∧
      activeProviderSubIds r.provider = ["sub_trial"] :=
  C7_free_to_trial_upgrade (fun _ => some SubscriptionKind.ZedProTrial) (fun _ => none)
    ⟨[⟨1, 10, "cus_1", none, false⟩],
     [⟨1, 1, some SubscriptionKind.ZedFree, "sub_free", SubscriptionStatus.Active,
       none, none, some 0, some 10⟩], [], 2, 2⟩
    ⟨[("sub_free", SubscriptionStatus.Active),
      ("sub_trial", SubscriptionStatus.Trialing)], [], []⟩
    ⟨"sub_trial", "cus_1", SubscriptionStatus.Trialing, 50, 60, none, none⟩
    ⟨1, 10, "cus_1", none, false⟩
    ⟨1, 1, some SubscriptionKind.ZedFree, "sub_free", SubscriptionStatus.Active,
      none, none, some 0, some 10⟩
    (by decide) (by decide) (by decide) (by decide) (by decide) (by decide)
    (by decide) (by decide)

theorem freePlanFallback_free_spec (db : Db) (provider : ProviderState)
    (bc : BillingCustomer) (s : StripeSubscription)
    (hstatus : s.status = SubscriptionStatus.Canceled
      ∨ s.status = SubscriptionStatus.Paused) :
    (hasActiveBillingSubscription db bc.userId = false →
      (freePlanFallback db provider bc s).provider.freeSubscribedCustomers =
        bc.stripeCustomerId :: provider.freeSubscribedCustomers) ∧
    (hasActiveBillingSubscription db bc.userId = true →
      (freePlanFallback db provider bc s).provider.freeSubscribedCustomers =
        provider.freeSubscribedCustomers) := by
  unfold freePlanFallback
  by_cases h : hasActiveBillingSubscription db bc.userId = false
  · rw [if_pos ⟨hstatus, h⟩]
    refine ⟨fun _ => rfl, fun ht => ?_⟩
    rw [ht] at h
    exact absurd h (by decide)
  · rw [if_neg (fun hc => h hc.2)]
    exact ⟨fun hf => absurd hf h, fun _ => rfl⟩

theorem syncAfterCustomer_free_spec (kind : Option SubscriptionKind) (db : Db)
    (provider : ProviderState) (bc : BillingCustomer) (s : StripeSubscription)
    (hstatus : s.status = SubscriptionStatus.Canceled
      ∨ s.status = SubscriptionStatus.Paused) :
    ((hasActiveBillingSubscription (syncAfterCustomer kind db provider bc s).db
        bc.userId = false →
      (syncAfterCustomer kind db provider bc s).provider.freeSubscribedCustomers =
        bc.stripeCustomerId :: provider.freeSubscribedCustomers) ∧
     (hasActiveBillingSubscription (syncAfterCustomer kind db provider bc s).db
        bc.userId = true →
      (syncAfterCustomer kind db provider bc s).provider.freeSubscribedCustomers =
        provider.freeSubscribedCustomers)) ∧
    (syncAfterCustomer kind db provider bc s).customer = bc := by
  have key : ∀ (x : Db) (p2 : ProviderState),
      p2.freeSubscribedCustomers = provider.freeSubscribedCustomers →
      ((hasActiveBillingSubscription (freePlanFallback x p2 bc s).db bc.userId = false →
        (freePlanFallback x p2 bc s).provider.freeSubscribedCustomers =
          bc.stripeCustomerId :: provider.freeSubscribedCustomers) ∧
       (hasActiveBillingSubscription (freePlanFallback x p2 bc s).db bc.userId = true →
        (freePlanFallback x p2 bc s).provider.freeSubscribedCustomers =
          provider.freeSubscribedCustomers)) ∧
      (freePlanFallback x p2 bc s).customer = bc := by
    intro x p2 hp2
    refine ⟨⟨?_, ?_⟩, freePlanFallback_customer _ _ _ _⟩
    · intro hf
      rw [freePlanFallback_db] at hf
      rw [(freePlanFallback_free_spec x p2 bc s hstatus).1 hf, hp2]
    · intro ht
      rw [freePlanFallback_db] at ht
      rw [(freePlanFallback_free_spec x p2 bc s hstatus).2 ht, hp2]
  simp only [syncAfterCustomer]
  split
  · exact key _ _ rfl
  · split
    · split
      · exact key _ _ rfl
      · next hget hcond =>
        refine ⟨⟨?_, fun _ => rfl⟩, rfl⟩
        intro hf
        unfold hasActiveBillingSubscription at hf
        dsimp only at hf
        rw [hget] at hf
        simp at hf
    · exact key _ _ rfl

/-- Claim C8: for a snapshot whose status is `canceled` or `paused`, after the
upsert the synchronizer enrolls the Customer in the base free plan at the
provider exactly when the Customer has no active subscription left; when an
active subscription remains, no free-plan enrollment happens. -/
theorem C8_free_plan_fallback (classify : StripeSubscription → Option SubscriptionKind)
    (getCustomerEmail : String → Option String) (db : Db) (provider : ProviderState)
    (s : StripeSubscription) (r : SyncResult)
    (hstatus : s.status = SubscriptionStatus.Canceled
      ∨ s.status = SubscriptionStatus.Paused)
    (hok : sync_subscription classify getCustomerEmail db provider s = Except.ok r) :
    (hasActiveBillingSubscription r.db r.customer.userId = false →
      r.provider.freeSubscribedCustomers =
        r.customer.stripeCustomerId :: provider.freeSubscribedCustomers) ∧
    (hasActiveBillingSubscription r.db r.customer.userId = true →
      r.provider.freeSubscribedCustomers = provider.freeSubscribedCustomers) := by
  unfold sync_subscription at hok
  rcases hfc : findOrCreateBillingCustomer db getCustomerEmail s.customer with ⟨opt, db1⟩
  rw [hfc] at hok
  cases opt with
  | none => simp at hok
  | some bc =>
    simp only [Except.ok.injEq] at hok
    subst hok
    have h := syncAfterCustomer_free_spec (classify s) db1 provider bc s hstatus
    rw [h.2]
    exact h.1

/-- Witness for C8: a cancellation snapshot for the customer's only
subscription leads to free-plan enrollment (and the vacuous active case). -/
theorem C8_free_plan_fallback_witness :
    (hasActiveBillingSubscription
        ⟨[⟨1, 10, "cus_1", none, false⟩],
         [⟨1, 1, none, "sub_X", SubscriptionStatus.Canceled, none, none,
           some 50, some 60⟩], [], 2, 2⟩ 10 = false →
      (⟨[], [], ["cus_1"]⟩ : ProviderState).freeSubscribedCustomers = ["cus_1"]) ∧
    (hasActiveBillingSubscription
        ⟨[⟨1, 10, "cus_1", none, false⟩],
         [⟨1, 1, none, "sub_X", SubscriptionStatus.Canceled, none, none,
           some 50, some 60⟩], [], 2, 2⟩ 10 = true →
      (⟨[], [], ["cus_1"]⟩ : ProviderState).freeSubscribedCustomers = []) :=
  C8_free_plan_fallback (fun _ => none) (fun _ => none)
    ⟨[⟨1, 10, "cus_1", none, false⟩],
     [⟨1, 1, none, "sub_X", SubscriptionStatus.Active, none, none, some 0,
       some 10⟩], [], 2, 2⟩
    ⟨[], [], []⟩
    ⟨"sub_X", "cus_1", SubscriptionStatus.Canceled, 50, 60, none, none⟩
    ⟨⟨[⟨1, 10, "cus_1", none, false⟩],
      [⟨1, 1, none, "sub_X", SubscriptionStatus.Canceled, none, none,
        some 50, some 60⟩], [], 2, 2⟩,
     ⟨[], [], ["cus_1"]⟩,
     ⟨1, 10, "cus_1", none, false⟩⟩
    (Or.inl rfl) (by rfl)

/-- Claim C10: when a subscription event's provider customer has no local row
and cannot be resolved (the live-fetched customer has no email, or the email
matches no local user), `sync_subscription` fails — and through the
dispatcher the ledger entry is withheld, so the event is retried — while the
customer-event handler treats the same conditions as a successful no-op, so
a customer event is marked processed. -/
theorem C10_unresolvable_customer_asymmetry
    (classify : StripeSubscription → Option SubscriptionKind)
    (getCustomerEmail : String → Option String) (db : Db)
    (provider : ProviderState) (cid : String)
    (hnone : getBillingCustomerByStripeCustomerId db cid = none)
    (hcond : getCustomerEmail cid = none ∨
      ∃ em, getCustomerEmail cid = some em ∧ getUserByEmail db em = none) :
    (∀ s : StripeSubscription, s.customer = cid →
      sync_subscription classify getCustomerEmail db provider s =
        Except.error "billing customer not found") ∧
    handle_customer_event db ⟨cid, getCustomerEmail cid⟩ = Except.ok db ∧
    (∀ (now : Int) (e : Event), ¬(staleCutoff now > e.created) →
      (e.type_ = EventType.CustomerCreated →
        e.object = EventObject.customer ⟨cid, getCustomerEmail cid⟩ →
        (dispatchEvents now (routeEvent classify getCustomerEmail)
          (⟨db, provider⟩ : FullState) [e]).writes = [e.id]) ∧
      (∀ s : StripeSubscription, e.type_ = EventType.CustomerSubscriptionCreated →
        e.object = EventObject.subscription s → s.customer = cid →
        (dispatchEvents now (routeEvent classify getCustomerEmail)
          (⟨db, provider⟩ : FullState) [e]).writes = [])) := by
  have hsync : ∀ s : StripeSubscription, s.customer = cid →
      sync_subscription classify getCustomerEmail db provider s =
        Except.error "billing customer not found" := by
    intro s hs
    unfold sync_subscription findOrCreateBillingCustomer
    rw [hs, hnone]
    rcases hcond with h | ⟨em, hem, hu⟩
    · rw [h]
    · rw [hem]
      dsimp only
      rw [hu]
  have hcust : handle_customer_event db ⟨cid, getCustomerEmail cid⟩ = Except.ok db := by
    unfold handle_customer_event
    dsimp only
    rcases hcond with h | ⟨em, hem, hu⟩
    · rw [h]
    · rw [hem]
      dsimp only
      rw [hu]
  refine ⟨hsync, hcust, ?_⟩
  intro now e hstale
  constructor
  · intro ht hobj
    have hroute : routeEvent classify getCustomerEmail ⟨db, provider⟩ e =
        Except.ok ⟨db, provider⟩ := by
      unfold routeEvent
      rw [ht]
      dsimp only
      rw [hobj]
      dsimp only
      rw [hcust]
      rfl
    simp only [dispatchEvents, if_neg hstale]
    rw [hroute]
  · intro s ht hobj hs
    have hroute : routeEvent classify getCustomerEmail ⟨db, provider⟩ e =
        Except.error "billing customer not found" := by
      unfold routeEvent
      rw [ht]
      dsimp only
      rw [hobj]
      dsimp only
      rw [hsync s hs]
      rfl
    simp only [dispatchEvents, if_neg hstale]
    rw [hroute]

/-- Witness for C10 on an empty store: the subscription event errors (no
ledger write), the customer event no-ops successfully (ledger write). -/
theorem C10_unresolvable_customer_asymmetry_witness :
    sync_subscription (fun _ => none) (fun _ => none) ⟨[], [], [], 1, 1⟩ ⟨[], [], []⟩
        ⟨"sub_9", "cus_9", SubscriptionStatus.Active, 0, 10, none, none⟩
      = Except.error "billing customer not found" ∧
    handle_customer_event ⟨[], [], [], 1, 1⟩ ⟨"cus_9", none⟩
      = Except.ok ⟨[], [], [], 1, 1⟩ ∧
    (dispatchEvents 100 (routeEvent (fun _ => none) (fun _ => none))
        (⟨⟨[], [], [], 1, 1⟩, ⟨[], [], []⟩⟩ : FullState)
        [⟨"ce1", EventType.CustomerCreated, 100,
          EventObject.customer ⟨"cus_9", none⟩⟩]).writes = ["ce1"] ∧
    (dispatchEvents 100 (routeEvent (fun _ => none) (fun _ => none))
        (⟨⟨[], [], [], 1, 1⟩, ⟨[], [], []⟩⟩ : FullState)
        [⟨"se1", EventType.CustomerSubscriptionCreated, 100,
          EventObject.subscription
            ⟨"sub_9", "cus_9", SubscriptionStatus.Active, 0, 10, none,
              none⟩⟩]).writes = [] := by
  have h := C10_unresolvable_customer_asymmetry (fun _ => none) (fun _ => none)
    ⟨[], [], [], 1, 1⟩ ⟨[], [], []⟩ "cus_9" rfl (Or.inl rfl)
  exact ⟨h.1 _ rfl, h.2.1,
    (h.2.2 100 _ (by decide)).1 rfl rfl,
    (h.2.2 100 _ (by decide)).2 _ rfl rfl rfl⟩

/-! Section: Usage-to-billing sync -/

theorem syncUsagePairs_spec (lookupModel : String → Option LlmModel)
    (modelIds : String → Nat) (meters : List UsageMeter) (custId subId : String) :
    ∀ (pairs : List (String × CompletionMode)) (tr : UsageSyncTrace),
      (∀ p ∈ pairs, lookupModel p.1 = some ⟨modelIds p.1, p.1⟩ ∧
        (priceAndMeterEventName p.1 p.2).isSome = true) →
      syncUsagePairs lookupModel meters custId subId pairs tr = Except.ok
        ⟨tr.subscribed ++
          (pairs.filter (fun p =>
              ((meters.find? (fun m => m.modelId = modelIds p.1 && m.mode = p.2)).map
                (fun m => m.requests)).getD 0 > 0)).map
            (fun p => (subId, ((priceAndMeterEventName p.1 p.2).getD ("", "")).1)),
         tr.reported ++
          pairs.map (fun p => (custId, ((priceAndMeterEventName p.1 p.2).getD ("", "")).2,
            ((meters.find? (fun m => m.modelId = modelIds p.1 && m.mode = p.2)).map
              (fun m => m.requests)).getD 0))⟩
  | [], tr, _ => by simp [syncUsagePairs]
  | (mn, md) :: rest, tr, h => by
    obtain ⟨hlk, hsome⟩ := h (mn, md) (List.mem_cons_self _ _)
    dsimp only at hlk hsome
    rcases Option.isSome_iff_exists.mp hsome with ⟨pe, hpe⟩
    have ih := syncUsagePairs_spec lookupModel modelIds meters custId subId rest
    simp only [syncUsagePairs]
    rw [hlk]
    dsimp only
    rw [hpe]
    dsimp only
    by_cases hreq : ((meters.find? (fun m =>
        m.modelId = modelIds mn && m.mode = md)).map (fun m => m.requests)).getD 0 > 0
    · rw [if_pos hreq,
        ih _ (fun p hp => h p (List.mem_cons_of_mem _ hp))]
      simp [List.filter_cons, hreq, hpe, List.append_assoc]
    · rw [if_neg hreq,
        ih _ (fun p hp => h p (List.mem_cons_of_mem _ hp))]
      simp [List.filter_cons, hreq, hpe, List.append_assoc]

/-- Claim C9: for a non-staff account, the usage sync walks the whole fixed
`(model, mode)` matrix; every pair's request count — zero included — is
reported as a metered billing event under the resolved meter-event name, and
the subscribe-to-price call happens exactly for the pairs with a nonzero
count. -/
theorem C9_usage_sync_zero_report (lookupModel : String → Option LlmModel)
    (modelIds : String → Nat) (meters : List UsageMeter) (custId subId : String)
    (hlk : ∀ p ∈ model_mode_combinations,
      lookupModel p.1 = some ⟨modelIds p.1, p.1⟩) :
    syncAccountUsage lookupModel meters false custId subId = Except.ok
      ⟨(model_mode_combinations.filter (fun p =>
          ((meters.find? (fun m => m.modelId = modelIds p.1 && m.mode = p.2)).map
            (fun m => m.requests)).getD 0 > 0)).map
          (fun p => (subId, ((priceAndMeterEventName p.1 p.2).getD ("", "")).1)),
       model_mode_combinations.map (fun p =>
          (custId, ((priceAndMeterEventName p.1 p.2).getD ("", "")).2,
            ((meters.find? (fun m => m.modelId = modelIds p.1 && m.mode = p.2)).map
              (fun m => m.requests)).getD 0))⟩ := by
  have hall : ∀ p ∈ model_mode_combinations,
      (priceAndMeterEventName p.1 p.2).isSome = true := by decide
  unfold syncAccountUsage
  rw [if_neg (by decide)]
  rw [syncUsagePairs_spec lookupModel modelIds meters custId subId
    model_mode_combinations ⟨[], []⟩ (fun p hp => ⟨hlk p hp, hall p hp⟩)]
  simp

/-- Witness for C9: an account with no usage meters at all still reports a
quantity of zero for every pair of the matrix, and subscribes to no price. -/
theorem C9_usage_sync_zero_report_witness :
    syncAccountUsage (fun s => some ⟨0, s⟩) [] false "cus_1" "sub_1" = Except.ok
      ⟨[],
       [("cus_1", "claude_opus_4/requests/max", 0),
        ("cus_1", "claude_opus_4/requests", 0),
        ("cus_1", "claude_sonnet_4/requests/max", 0),
        ("cus_1", "claude_sonnet_4/requests", 0),
        ("cus_1", "claude_3_7_sonnet/requests/max", 0),
        ("cus_1", "claude_3_7_sonnet/requests", 0),
        ("cus_1", "claude_3_5_sonnet/requests", 0)]⟩ := by
  have h := C9_usage_sync_zero_report (fun s => some ⟨0, s⟩) (fun _ => 0) []
    "cus_1" "sub_1" (fun p _ => rfl)
  rw [h]
  rfl

end Billing
